import Mathlib

/-!
Verification of the planet arcade-game simulation core.

A shallow embedding of the gameplay simulation engine of `src/main.rs`:
the non-repeating countdown `Timer`, the wave table (`SpawnAt`, `Wave`,
`Challenge`), the spawner state machine (`spawn_enemies`), the collision
resolver (`collision_resolve`), the bullet lifecycle sweep (`bullet_clean`),
the enemy speed decay and velocity shaping (`move_enemies`), and the player
orbital motion (`movement`).

`f32` values are modelled as rationals (`ℚ`).  Time is measured in
milliseconds wherever the code uses `Duration` (the spawner and the bullet
lifetime) and in seconds where the code uses `delta_seconds` (`movement` and
`move_enemies`).  Computations that can produce a floating-point NaN
(`Vec2::angle_between` against a zero vector, `normalize` of a zero vector)
are modelled with `Option`: `none` stands for NaN.  The actual transcendental
values (`atan2`, the direction of a normalized vector) are irrational, so the
embedding takes them as function parameters; only their defined-ness is
decided by the embedding, exactly as in the code's `is_nan` guards.
-/

/-- Bevy's non-repeating `Timer` as used by the game: accumulated elapsed
time, a threshold duration, and the stored `finished` flag. -/
structure Timer where
  elapsed : ℚ
  duration : ℚ
  finished : Bool
deriving DecidableEq

/-- Constructor `Timer::new(d, false)`: zero elapsed time, not finished. -/
def Timer.new (d : ℚ) : Timer :=
  { elapsed := 0, duration := d, finished := false }

/-- Method `Timer::tick(delta)` for a non-repeating timer: once finished it stays
unchanged; otherwise elapsed time accumulates, clamped at the duration, and
the `finished` flag is set when the duration is reached. -/
def Timer.tick (t : Timer) (delta : ℚ) : Timer :=
  if t.finished then t
  else
    let e := t.elapsed + delta
    if t.duration ≤ e then { elapsed := t.duration, duration := t.duration, finished := true }
    else { elapsed := e, duration := t.duration, finished := false }

/-- Method `Timer::reset()`: zero the elapsed time and clear the flag. -/
def Timer.reset (t : Timer) : Timer :=
  { elapsed := 0, duration := t.duration, finished := false }

/-- Method `Timer::set_duration(d)`: change the threshold only. -/
def Timer.set_duration (t : Timer) (d : ℚ) : Timer :=
  { elapsed := t.elapsed, duration := d, finished := t.finished }

/-- Rust's `x as u64` on an `f32`, as used in
`Duration::from_millis(spawn.cooldown as u64)`: truncation toward zero,
saturating at the ends of the `u64` range. -/
def f32_as_u64 (c : ℚ) : ℚ :=
  if c < 0 then 0 else min (⌊c⌋ : ℚ) (2 ^ 64 - 1)

/-- One entry of a wave: which enemy to spawn and the cooldown (ms, `f32`)
until the next spawn. -/
structure SpawnAt where
  enemy_id : Nat
  cooldown : ℚ
deriving DecidableEq

/-- A wave: an ordered list of spawn entries. -/
structure Wave where
  spawns : List SpawnAt
deriving DecidableEq

/-- Generator `Wave::from_progress(progress)`: `progress * 3` entries, each with
`enemy_id = 0` and a cooldown drawn from the random source.  The random
source is modelled as the injected function `cool`, giving the value drawn
for each entry index. -/
def Wave.from_progress (progress : Nat) (cool : Nat → ℚ) : Wave :=
  { spawns := (List.range (progress * 3)).map fun j => { enemy_id := 0, cooldown := cool j } }

/-- The challenge: the full table of waves. -/
structure Challenge where
  waves : List Wave
deriving DecidableEq

/-- Generator `Challenge::new()`: 100 waves, wave `i` built by `Wave::from_progress(i)`.
`cool i j` is the cooldown the random source produced for entry `j` of
wave `i`. -/
def Challenge.new (cool : Nat → Nat → ℚ) : Challenge :=
  { waves := (List.range 100).map fun i => Wave.from_progress i (cool i) }

/-- The spawner component: the running spawn timer, the spawn-ring diameter
and the current wave/spawn indices into the challenge table. -/
structure Spawner where
  spawntimer : Timer
  size : ℚ
  current_wave : Nat
  current_spawn : Nat
deriving DecidableEq

/-- The spawner as created in `setup`: a fresh 2000 ms timer, ring size 1024,
indices `(0, 0)`. -/
def spawner0 : Spawner :=
  { spawntimer := Timer.new 2000, size := 1024, current_wave := 0, current_spawn := 0 }

/-- The enemy component. -/
structure Enemy where
  speed : ℚ
  has_hit : Nat
  damage : ℚ
  hp : ℚ
deriving DecidableEq

/-- The bullet component. -/
structure Bullet where
  lifetime : Timer
  damage : ℚ
  has_hit : Nat
deriving DecidableEq

/-- The planet component. -/
structure Planet where
  size : ℚ
  hp : ℚ
deriving DecidableEq

/-- Entity handles of the surrounding entity store. -/
abbrev EntityId := Nat

/-- Component lookup by handle, modelling a failing `query.get_mut(id)` as
`none` (stale or missing handles are skipped by the resolver). -/
def getA {β : Type} (k : EntityId) : List (EntityId × β) → Option β
  | [] => none
  | (k', v) :: rest => if k' = k then some v else getA k rest

/-- Component write-back by handle; a write to an absent handle is a no-op
(the code can only write through a successful `get_mut`). -/
def setA {β : Type} (k : EntityId) (v : β) : List (EntityId × β) → List (EntityId × β)
  | [] => []
  | (k', v') :: rest => if k' = k then (k', v) :: rest else (k', v') :: setA k v rest

/-- The slice of the bevy world the collision resolver touches: the three
component tables it queries. -/
structure World where
  bullets : List (EntityId × Bullet)
  enemies : List (EntityId × Enemy)
  planets : List (EntityId × Planet)
deriving DecidableEq

/-- A rapier collision event: only `Started` pairs are consumed. -/
inductive CollisionEvent where
  | Started (ent oth : EntityId)
  | Stopped (ent oth : EntityId)
deriving DecidableEq

/-- One bullet-side block of `collision_resolve`: if `ent` is a bullet with
`has_hit == 0`, subtract its damage from the enemy at `oth` (when that lookup
succeeds) and set the bullet's `has_hit` to 1 (unconditionally — the
assignment sits outside the enemy lookup in the source). -/
def bulletHit (ent oth : EntityId) (w : World) : World :=
  match getA ent w.bullets with
  | none => w
  | some bullet =>
    if bullet.has_hit = 0 then
      let w1 :=
        match getA oth w.enemies with
        | none => w
        | some enemy =>
          { w with enemies := setA oth { enemy with hp := enemy.hp - bullet.damage } w.enemies }
      { w1 with bullets := setA ent { bullet with has_hit := 1 } w1.bullets }
    else w

/-- One enemy-side block of `collision_resolve`: if `ent` is an enemy with
`has_hit == 0` and `oth` is the planet, subtract the enemy's damage from the
planet's hp and set the enemy's `has_hit` to 1 (both inside the planet
lookup). -/
def enemyHit (ent oth : EntityId) (w : World) : World :=
  match getA ent w.enemies with
  | none => w
  | some enemy =>
    if enemy.has_hit = 0 then
      match getA oth w.planets with
      | none => w
      | some planet =>
        { w with
          planets := setA oth { planet with hp := planet.hp - enemy.damage } w.planets,
          enemies := setA ent { enemy with has_hit := 1 } w.enemies }
    else w

/-- Processing of one collision event by `collision_resolve`: the four
guarded blocks, in source order, against both orderings of the pair. -/
def collision_resolve_event (w : World) : CollisionEvent → World
  | CollisionEvent.Started ent oth =>
    enemyHit oth ent (enemyHit ent oth (bulletHit oth ent (bulletHit ent oth w)))
  | CollisionEvent.Stopped _ _ => w

/-- System `collision_resolve`: drain the event stream in order. -/
def collision_resolve (w : World) (events : List CollisionEvent) : World :=
  events.foldl collision_resolve_event w

/-- One bullet's pass of `bullet_clean`: tick the lifetime, decide removal
(`finished || has_hit == 2`), then increment `has_hit` (a `u8`) while it is
positive. -/
def bullet_clean_step (dt : ℚ) (b : Bullet) : Bool × Bullet :=
  let b1 : Bullet := { b with lifetime := b.lifetime.tick dt }
  let rem : Bool := b1.lifetime.finished || (b1.has_hit == 2)
  let b2 : Bullet := if 0 < b1.has_hit then { b1 with has_hit := (b1.has_hit + 1) % 256 } else b1
  (rem, b2)

/-- The speed decay of `move_enemies`: while positive, speed drops by
`0.1 * dt`; once non-positive it is left alone. -/
def move_enemies_speed (dt speed : ℚ) : ℚ :=
  if 0 < speed then speed - dt * (1 / 10) else speed

/-- Speed after a sequence of `move_enemies` ticks. -/
def move_enemies_speed_run (s : ℚ) (ds : List ℚ) : ℚ :=
  ds.foldl (fun a d => move_enemies_speed d a) s

/-- Primitive `Vec2::angle_between(axis, v)` against a fixed nonzero axis: NaN (`none`)
exactly when `v` is the zero vector, otherwise the finite angle, supplied by
the injected primitive `atan`. -/
def angle_between (atan : ℚ → ℚ → ℚ) (x y : ℚ) : Option ℚ :=
  if x = 0 ∧ y = 0 then none else some (atan x y)

/-- The `if angle.is_nan() { angle = 0.0 }` guard: substitute 0 for NaN. -/
def nan_to_zero (a : Option ℚ) : ℚ :=
  a.getD 0

/-- Primitive `Vec2::normalize`: NaN components (`none`) on the zero vector, otherwise
the unit direction supplied by the injected primitive `f`. -/
def normalize2 (f : ℚ × ℚ → ℚ × ℚ) (v : ℚ × ℚ) : Option (ℚ × ℚ) :=
  if v = (0, 0) then none else some (f v)

/-- Primitive `Vec3::normalize`, likewise. -/
def normalize3 (f : ℚ × ℚ × ℚ → ℚ × ℚ × ℚ) (v : ℚ × ℚ × ℚ) : Option (ℚ × ℚ × ℚ) :=
  if v = (0, 0, 0) then none else some (f v)

/-- The player's recovered angle in `movement`: guarded
`angle_between(Vec2::X, position)`. -/
def movement_angle_past (atan : ℚ → ℚ → ℚ) (x y : ℚ) : ℚ :=
  nan_to_zero (angle_between atan x y)

/-- The new player angle computed by `movement`:
`angle_past + direction * speed * (1.0 / planet.size) * dt`. -/
def movement_angle (angle_past direction speed size dt : ℚ) : ℚ :=
  angle_past + direction * speed * (1 / size) * dt

/-- Modelled from the spec: the angle update as §4.2 states it,
`old angle + direction × speed / planet_radius × dt` with
`planet_radius = size / 2` (`size` being the diameter). -/
def movement_angle_spec (angle_past direction speed size dt : ℚ) : ℚ :=
  angle_past + direction * speed / (size / 2) * dt

/-- The firing angle in `shooting`: guarded
`angle_between(Vec2::Y, position)`. -/
def shooting_angle (atan : ℚ → ℚ → ℚ) (x y : ℚ) : ℚ :=
  nan_to_zero (angle_between atan x y)

/-- The bullet's initial velocity in `shooting`: the x,y part of the
normalized 3D player translation, times 500 (no NaN guard in the source). -/
def shooting_bullet_velocity (f : ℚ × ℚ × ℚ → ℚ × ℚ × ℚ) (x y z : ℚ) : Option (ℚ × ℚ) :=
  (normalize3 f (x, y, z)).map fun a => (a.1 * 500, a.2.1 * 500)

/-- The enemy facing angle in `move_enemies`: guarded
`angle_between(Vec2::X, position)`. -/
def move_enemies_facing (atan : ℚ → ℚ → ℚ) (x y : ℚ) : ℚ :=
  nan_to_zero (angle_between atan x y)

/-- The velocity correction of `move_enemies`:
`linvel - (tan - tan.perp() * speed)` with `tan = normalize(position)`
(no NaN guard in the source; `Vec2::perp (x, y) = (-y, x)`). -/
def move_enemies_correction (f : ℚ × ℚ → ℚ × ℚ) (pos : ℚ × ℚ) (speed : ℚ)
    (linvel : ℚ × ℚ) : Option (ℚ × ℚ) :=
  (normalize2 f pos).map fun tan =>
    (linvel.1 - (tan.1 - (-tan.2) * speed), linvel.2 - (tan.2 - tan.1 * speed))

/-- The tail of a spawner step once the indices have been updated: re-read
the addressed wave and entry (`none` models an out-of-bounds panic), install
that entry's cooldown as the new timer duration, reset the timer, and emit
the spawn request `(wave index, entry index, entry)`. -/
def spawn_enemies_fire (ch : Challenge) (s : Spawner) :
    Option (Spawner × Option (Nat × Nat × SpawnAt)) :=
  match ch.waves[s.current_wave]? with
  | none => none
  | some wave =>
    match wave.spawns[s.current_spawn]? with
    | none => none
    | some sp =>
      some ({ s with spawntimer := (s.spawntimer.set_duration (f32_as_u64 sp.cooldown)).reset },
            some (s.current_wave, s.current_spawn, sp))

/-- One tick of `spawn_enemies` for the (single) spawner.  `enemiesEmpty` is
`enemy_query.is_empty()`.  Returns `none` on an out-of-bounds table access
(a Rust panic), otherwise the new spawner state and the spawn request
emitted, if any. -/
def spawn_enemies_step (ch : Challenge) (enemiesEmpty : Bool) (delta : ℚ) (s : Spawner) :
    Option (Spawner × Option (Nat × Nat × SpawnAt)) :=
  if ch.waves.length ≤ s.current_wave then some (s, none)
  else if (s.spawntimer.tick delta).finished then
    match ch.waves[s.current_wave]? with
    | none => none
    | some wave =>
      if wave.spawns.length ≤ s.current_spawn + 1 then
        if enemiesEmpty then
          if ch.waves.length ≤ s.current_wave + 1 then
            some ({ s with
                    spawntimer := (s.spawntimer.tick delta).reset,
                    current_wave := s.current_wave + 1,
                    current_spawn := 0 }, none)
          else
            spawn_enemies_fire ch
              { s with
                spawntimer := (s.spawntimer.tick delta).reset,
                current_wave := s.current_wave + 1,
                current_spawn := 0 }
        else some ({ s with spawntimer := s.spawntimer.tick delta }, none)
      else
        spawn_enemies_fire ch
          { s with
            spawntimer := (s.spawntimer.tick delta).reset,
            current_spawn := s.current_spawn + 1 }
  else some ({ s with spawntimer := s.spawntimer.tick delta }, none)

/-- A run of `spawn_enemies` ticks, counting how many spawn requests were
emitted.  `none` propagates an out-of-bounds panic. -/
def spawn_enemies_iter (ch : Challenge) (enemiesEmpty : Bool) (s : Spawner) :
    List ℚ → Option (Spawner × Nat)
  | [] => some (s, 0)
  | d :: ds =>
    match spawn_enemies_step ch enemiesEmpty d s with
    | none => none
    | some (s', o) =>
      match spawn_enemies_iter ch enemiesEmpty s' ds with
      | none => none
      | some (s'', n) => some (s'', (if o.isSome then 1 else 0) + n)

/-! ## Association-list lemmas -/

theorem getA_setA_self {β : Type} (k : EntityId) (v : β) :
    ∀ l : List (EntityId × β), getA k (setA k v l) = (getA k l).map fun _ => v := by
  intro l
  induction l with
  | nil => rfl
  | cons hd tl ih =>
    obtain ⟨k', v'⟩ := hd
    by_cases h : k' = k
    · simp [setA, getA, h]
    · simp [setA, getA, h, ih]

theorem getA_setA_ne {β : Type} {j k : EntityId} (h : j ≠ k) (v : β) :
    ∀ l : List (EntityId × β), getA j (setA k v l) = getA j l := by
  intro l
  induction l with
  | nil => rfl
  | cons hd tl ih =>
    obtain ⟨k', v'⟩ := hd
    by_cases hk : k' = k
    · subst hk
      simp [setA, getA, Ne.symm h, ih]
    · by_cases hj : k' = j
      · subst hj
        simp [setA, getA, hk, h]
      · simp [setA, getA, hk, hj, ih]

theorem getA_some_none_ne {β : Type} {a b : EntityId} {l : List (EntityId × β)} {v : β}
    (ha : getA a l = some v) (hb : getA b l = none) : a ≠ b := by
  intro h
  subst h
  rw [ha] at hb
  cases hb

/-! ## Collision-resolver lemmas -/

theorem resolve_started_bullet_enemy (w : World) (a b : EntityId) (bu : Bullet) (en : Enemy)
    (hbu : getA a w.bullets = some bu) (h0 : bu.has_hit = 0)
    (hen : getA b w.enemies = some en)
    (hae : getA a w.enemies = none) (hap : getA a w.planets = none)
    (hbb : getA b w.bullets = none) :
    collision_resolve_event w (CollisionEvent.Started a b) =
      { bullets := setA a { bu with has_hit := 1 } w.bullets,
        enemies := setA b { en with hp := en.hp - bu.damage } w.enemies,
        planets := w.planets } := by
  have hab : a ≠ b := getA_some_none_ne hbu hbb
  have hba : b ≠ a := hab.symm
  simp only [collision_resolve_event, bulletHit, enemyHit, hbu, h0, hen, if_true]
  simp only [getA_setA_ne hba, getA_setA_ne hab, hbb, hae, hbu, hen, hap,
    getA_setA_self, Option.map_some', ite_self]

theorem resolve_started_bullet_noenemy (w : World) (a b : EntityId) (bu : Bullet)
    (hbu : getA a w.bullets = some bu) (h0 : bu.has_hit = 0)
    (hen : getA b w.enemies = none)
    (hae : getA a w.enemies = none) (hap : getA a w.planets = none)
    (hbb : getA b w.bullets = none) :
    collision_resolve_event w (CollisionEvent.Started a b) =
      { bullets := setA a { bu with has_hit := 1 } w.bullets,
        enemies := w.enemies,
        planets := w.planets } := by
  have hab : a ≠ b := getA_some_none_ne hbu hbb
  have hba : b ≠ a := hab.symm
  simp only [collision_resolve_event, bulletHit, enemyHit, hbu, h0, hen, if_true]
  simp only [getA_setA_ne hba, getA_setA_ne hab, hbb, hae, hbu, hen, hap,
    getA_setA_self, Option.map_some', ite_self]

theorem resolve_started_enemy_planet (w : World) (c p : EntityId) (en : Enemy) (pl : Planet)
    (hen : getA c w.enemies = some en) (h0 : en.has_hit = 0)
    (hpl : getA p w.planets = some pl)
    (hcb : getA c w.bullets = none) (hpb : getA p w.bullets = none)
    (hpe : getA p w.enemies = none) :
    collision_resolve_event w (CollisionEvent.Started c p) =
      { bullets := w.bullets,
        enemies := setA c { en with has_hit := 1 } w.enemies,
        planets := setA p { pl with hp := pl.hp - en.damage } w.planets } := by
  have hcp : c ≠ p := getA_some_none_ne hen hpe
  have hpc : p ≠ c := hcp.symm
  simp only [collision_resolve_event, bulletHit, enemyHit, hcb, hpb, hen, h0, hpl, if_true]
  simp only [getA_setA_ne hpc, getA_setA_ne hcp, hpe, getA_setA_self, Option.map_some',
    ite_self]

theorem resolve_again_bullet_enemy (w : World) (a b : EntityId) (bu : Bullet) (en : Enemy)
    (hbu : getA a w.bullets = some bu)
    (hen : getA b w.enemies = some en)
    (hae : getA a w.enemies = none) (hap : getA a w.planets = none)
    (hbb : getA b w.bullets = none) :
    collision_resolve_event
      { bullets := setA a { bu with has_hit := 1 } w.bullets,
        enemies := setA b { en with hp := en.hp - bu.damage } w.enemies,
        planets := w.planets } (CollisionEvent.Started a b) =
      { bullets := setA a { bu with has_hit := 1 } w.bullets,
        enemies := setA b { en with hp := en.hp - bu.damage } w.enemies,
        planets := w.planets } := by
  have hab : a ≠ b := getA_some_none_ne hbu hbb
  have hba : b ≠ a := hab.symm
  simp only [collision_resolve_event, bulletHit, enemyHit]
  simp [getA_setA_ne hba, getA_setA_ne hab, hbb, hae, hap, hbu, hen,
    getA_setA_self, Option.map_some', ite_self]

theorem resolve_again_enemy_planet (w : World) (c p : EntityId) (en : Enemy) (pl : Planet)
    (hen : getA c w.enemies = some en)
    (hpl : getA p w.planets = some pl)
    (hcb : getA c w.bullets = none) (hpb : getA p w.bullets = none)
    (hpe : getA p w.enemies = none) :
    collision_resolve_event
      { bullets := w.bullets,
        enemies := setA c { en with has_hit := 1 } w.enemies,
        planets := setA p { pl with hp := pl.hp - en.damage } w.planets }
      (CollisionEvent.Started c p) =
      { bullets := w.bullets,
        enemies := setA c { en with has_hit := 1 } w.enemies,
        planets := setA p { pl with hp := pl.hp - en.damage } w.planets } := by
  have hcp : c ≠ p := getA_some_none_ne hen hpe
  have hpc : p ≠ c := hcp.symm
  simp only [collision_resolve_event, bulletHit, enemyHit]
  simp [getA_setA_ne hpc, getA_setA_ne hcp, hcb, hpb, hpe, hen, hpl,
    getA_setA_self, Option.map_some', ite_self]

/-! ## Claim theorems: collision resolution -/

/-- C1 (counterexample): on a contact-start event whose other entity is not
an Enemy (here the pair is an armed bullet, handle 1, and the planet,
handle 2, with no enemy present at all), the resolver nevertheless sets the
bullet's `has_hit` to 1 — refuting the claim that the flag is set exactly
when the other side is an Enemy and never otherwise. -/
theorem collision_bullet_marked_without_enemy :
    getA 2 (World.mk [(1, Bullet.mk (Timer.new 1000) 25 0)] [] [(2, Planet.mk 192 100)]).enemies
      = none
    ∧ getA 1 (collision_resolve_event
        (World.mk [(1, Bullet.mk (Timer.new 1000) 25 0)] [] [(2, Planet.mk 192 100)])
        (CollisionEvent.Started 1 2)).bullets
      = some (Bullet.mk (Timer.new 1000) 25 1) := by
  constructor
  · rfl
  · rfl

/-- C1 (amended): for a contact-start event whose `ent` side is an armed
Bullet, the resolver subtracts the bullet's damage from the enemy's hp
exactly when the other side is an Enemy, but it sets the bullet's `has_hit`
to 1 in either case — the marking does not require the other entity to be a
live Enemy. -/
theorem collision_bullet_rule (w : World) (a b : EntityId) (bu : Bullet)
    (hbu : getA a w.bullets = some bu) (h0 : bu.has_hit = 0)
    (hae : getA a w.enemies = none) (hap : getA a w.planets = none)
    (hbb : getA b w.bullets = none) :
    (∀ en : Enemy, getA b w.enemies = some en →
      collision_resolve_event w (CollisionEvent.Started a b) =
        { bullets := setA a { bu with has_hit := 1 } w.bullets,
          enemies := setA b { en with hp := en.hp - bu.damage } w.enemies,
          planets := w.planets })
    ∧ (getA b w.enemies = none →
      collision_resolve_event w (CollisionEvent.Started a b) =
        { bullets := setA a { bu with has_hit := 1 } w.bullets,
          enemies := w.enemies,
          planets := w.planets }) := by
  constructor
  · intro en hen
    exact resolve_started_bullet_enemy w a b bu en hbu h0 hen hae hap hbb
  · intro hen
    exact resolve_started_bullet_noenemy w a b bu hbu h0 hen hae hap hbb

/-- Witness for C1 (amended): the rule evaluated on a concrete world with a
bullet (handle 1), an enemy (handle 2) and the planet (handle 3). -/
theorem collision_bullet_rule_witness :
    collision_resolve_event
        (World.mk [(1, Bullet.mk (Timer.new 1000) 25 0)]
                  [(2, Enemy.mk 2 0 1 100)] [(3, Planet.mk 192 100)])
        (CollisionEvent.Started 1 2) =
      World.mk [(1, Bullet.mk (Timer.new 1000) 25 1)]
               [(2, Enemy.mk 2 0 1 75)] [(3, Planet.mk 192 100)] := by
  have h := (collision_bullet_rule
      (World.mk [(1, Bullet.mk (Timer.new 1000) 25 0)]
                [(2, Enemy.mk 2 0 1 100)] [(3, Planet.mk 192 100)])
      1 2 (Bullet.mk (Timer.new 1000) 25 0) rfl rfl rfl rfl rfl).1
    (Enemy.mk 2 0 1 100) rfl
  rw [h]
  norm_num [setA]

/-- C2: feeding the same contact-start pair twice through one resolver pass
applies damage exactly once: for a bullet–enemy pair the enemy loses the
bullet's damage once, and for an enemy–planet pair the planet loses the
enemy's damage once; in both cases the second occurrence of the event is a
complete no-op because the `has_hit` guard is re-checked against the already
mutated state. -/
theorem collision_no_double_damage :
    (∀ (w : World) (a b : EntityId) (bu : Bullet) (en : Enemy),
      getA a w.bullets = some bu → bu.has_hit = 0 →
      getA b w.enemies = some en →
      getA a w.enemies = none → getA a w.planets = none →
      getA b w.bullets = none →
      getA b (collision_resolve w
          [CollisionEvent.Started a b, CollisionEvent.Started a b]).enemies
        = some { en with hp := en.hp - bu.damage }
      ∧ collision_resolve w [CollisionEvent.Started a b, CollisionEvent.Started a b]
        = collision_resolve w [CollisionEvent.Started a b])
    ∧ (∀ (w : World) (c p : EntityId) (en : Enemy) (pl : Planet),
      getA c w.enemies = some en → en.has_hit = 0 →
      getA p w.planets = some pl →
      getA c w.bullets = none → getA p w.bullets = none →
      getA p w.enemies = none →
      getA p (collision_resolve w
          [CollisionEvent.Started c p, CollisionEvent.Started c p]).planets
        = some { pl with hp := pl.hp - en.damage }
      ∧ collision_resolve w [CollisionEvent.Started c p, CollisionEvent.Started c p]
        = collision_resolve w [CollisionEvent.Started c p]) := by
  constructor
  · intro w a b bu en hbu h0 hen hae hap hbb
    have h1 := resolve_started_bullet_enemy w a b bu en hbu h0 hen hae hap hbb
    have h2 := resolve_again_bullet_enemy w a b bu en hbu hen hae hap hbb
    have hrun : collision_resolve w [CollisionEvent.Started a b, CollisionEvent.Started a b]
        = { bullets := setA a { bu with has_hit := 1 } w.bullets,
            enemies := setA b { en with hp := en.hp - bu.damage } w.enemies,
            planets := w.planets } := by
      simp only [collision_resolve, List.foldl, h1, h2]
    refine ⟨?_, ?_⟩
    · rw [hrun]
      simp only [World.enemies]
      rw [getA_setA_self, hen]
      rfl
    · rw [hrun]
      simp only [collision_resolve, List.foldl, h1]
  · intro w c p en pl hen h0 hpl hcb hpb hpe
    have h1 := resolve_started_enemy_planet w c p en pl hen h0 hpl hcb hpb hpe
    have h2 := resolve_again_enemy_planet w c p en pl hen hpl hcb hpb hpe
    have hrun : collision_resolve w [CollisionEvent.Started c p, CollisionEvent.Started c p]
        = { bullets := w.bullets,
            enemies := setA c { en with has_hit := 1 } w.enemies,
            planets := setA p { pl with hp := pl.hp - en.damage } w.planets } := by
      simp only [collision_resolve, List.foldl, h1, h2]
    refine ⟨?_, ?_⟩
    · rw [hrun]
      simp only [World.planets]
      rw [getA_setA_self, hpl]
      rfl
    · rw [hrun]
      simp only [collision_resolve, List.foldl, h1]

/-- Witness for C2: the duplicated bullet–enemy event on a concrete world
drops the enemy's hp from 100 to 75 (damage 25 applied once, not twice). -/
theorem collision_no_double_damage_witness :
    getA 2 (collision_resolve
        (World.mk [(1, Bullet.mk (Timer.new 1000) 25 0)]
                  [(2, Enemy.mk 2 0 1 100)] [(3, Planet.mk 192 100)])
        [CollisionEvent.Started 1 2, CollisionEvent.Started 1 2]).enemies
      = some (Enemy.mk 2 0 1 75) := by
  have h := (collision_no_double_damage.1
      (World.mk [(1, Bullet.mk (Timer.new 1000) 25 0)]
                [(2, Enemy.mk 2 0 1 100)] [(3, Planet.mk 192 100)])
      1 2 (Bullet.mk (Timer.new 1000) 25 0) (Enemy.mk 2 0 1 100)
      rfl rfl rfl rfl rfl rfl).1
  rw [h]
  norm_num [getA, setA]

/-! ## Claim theorems: enemy speed decay -/

theorem move_enemies_speed_run_lb (D : ℚ) :
    ∀ (ds : List ℚ) (s : ℚ), -(D / 10) ≤ s → (∀ d ∈ ds, 0 ≤ d ∧ d ≤ D) →
      -(D / 10) ≤ move_enemies_speed_run s ds := by
  intro ds
  induction ds with
  | nil =>
    intro s hs _
    simpa [move_enemies_speed_run] using hs
  | cons d tl ih =>
    intro s hs h
    have hd := h d (by simp)
    have htl : ∀ x ∈ tl, 0 ≤ x ∧ x ≤ D := fun x hx => h x (by simp [hx])
    have hstep : -(D / 10) ≤ move_enemies_speed d s := by
      unfold move_enemies_speed
      split
      · linarith [hd.2]
      · exact hs
    have hrun : move_enemies_speed_run s (d :: tl)
        = move_enemies_speed_run (move_enemies_speed d s) tl := rfl
    rw [hrun]
    exact ih (move_enemies_speed d s) hstep htl

/-- C3 (counterexample): one `move_enemies` tick with a 30 s delta starting
from speed 2.0 leaves `enemy.speed = -1 < 0`: the decay is guarded by
`speed > 0` before the subtraction, not floored at 0, so a single step can
overshoot into negative speed. -/
theorem move_enemies_speed_negative :
    move_enemies_speed_run 2 [30] < 0 := by
  norm_num [move_enemies_speed_run, move_enemies_speed]

/-- C3 (amended): starting from speed 2.0, after any sequence of
`move_enemies` ticks whose deltas lie in `[0, D]`, the speed never drops
below `-0.1 * D` (a single final decrement may overshoot 0 by at most
`0.1 * delta`), and once the speed is non-positive it never changes again. -/
theorem move_enemies_speed_lower_bound (D : ℚ) (ds : List ℚ) (hD : 0 ≤ D)
    (h : ∀ d ∈ ds, 0 ≤ d ∧ d ≤ D) :
    -(D / 10) ≤ move_enemies_speed_run 2 ds
    ∧ ∀ s d : ℚ, s ≤ 0 → move_enemies_speed d s = s := by
  constructor
  · exact move_enemies_speed_run_lb D ds 2 (by linarith) h
  · intro s d hs
    unfold move_enemies_speed
    rw [if_neg (not_lt.mpr hs)]

/-- Witness for C3 (amended): deltas bounded by 30 s, one 30 s tick. -/
theorem move_enemies_speed_lower_bound_witness :
    -((30 : ℚ) / 10) ≤ move_enemies_speed_run 2 [30]
    ∧ ∀ s d : ℚ, s ≤ 0 → move_enemies_speed d s = s :=
  move_enemies_speed_lower_bound 30 [30] (by norm_num) (by norm_num)

/-! ## Claim theorems: player orbital motion -/

/-- C6 (counterexample): with the actual planet (`size = 192`), full left
input, player speed 300 and a 1 s delta, the code's angle update
(`direction * speed * (1.0 / planet.size) * dt`, i.e. dividing by the
diameter) differs from the spec's `direction × speed / planet_radius × dt`
with `planet_radius = size / 2`. -/
theorem movement_angle_not_radius :
    movement_angle 0 1 300 192 1 ≠ movement_angle_spec 0 1 300 192 1 := by
  norm_num [movement_angle, movement_angle_spec]

/-- C6 (amended): the new player angle is the old angle plus
`direction × speed / planet.size × dt` — the divisor is the planet's
diameter (`size`), not its radius, so the angular increment is exactly half
of what the spec's radius-based formula states. -/
theorem movement_angle_uses_diameter (a d s sz t : ℚ) (h : sz ≠ 0) :
    movement_angle a d s sz t - a = (movement_angle_spec a d s sz t - a) / 2 := by
  unfold movement_angle movement_angle_spec
  field_simp
  ring

/-- Witness for C6 (amended): evaluated at the setup values. -/
theorem movement_angle_uses_diameter_witness :
    movement_angle 0 1 300 192 1 - 0 = (movement_angle_spec 0 1 300 192 1 - 0) / 2 :=
  movement_angle_uses_diameter 0 1 300 192 1 (by norm_num)

/-! ## Claim theorems: degenerate zero-vector handling -/

/-- C7 (counterexample): for an enemy sitting exactly at the origin, the
velocity correction of `move_enemies` normalizes the zero position vector
without any guard, so NaN (modelled as `none`) reaches the physics body's
velocity — refuting the claim that no NaN reaches any output. -/
theorem move_enemies_correction_nan_at_origin :
    move_enemies_correction (fun v => v) (0, 0) 2 (0, 0) = none := by
  simp [move_enemies_correction, normalize2]

/-- C7 (amended): at the origin every *angle* computation is guarded to 0
(the player's recovered angle, the firing angle, the enemy facing angle),
and the bullet's initial velocity is NaN-free because it normalizes the 3D
translation whose z component is nonzero; but the enemy velocity correction
normalizes the 2D position unguarded and is NaN (`none`) at the origin. -/
theorem origin_degenerate_guards (atan : ℚ → ℚ → ℚ) (f3 : ℚ × ℚ × ℚ → ℚ × ℚ × ℚ)
    (f2 : ℚ × ℚ → ℚ × ℚ) (x y z speed : ℚ) (lv : ℚ × ℚ) (hz : z ≠ 0) :
    movement_angle_past atan 0 0 = 0
    ∧ shooting_angle atan 0 0 = 0
    ∧ move_enemies_facing atan 0 0 = 0
    ∧ (shooting_bullet_velocity f3 x y z).isSome = true
    ∧ move_enemies_correction f2 (0, 0) speed lv = none := by
  refine ⟨rfl, rfl, rfl, ?_, ?_⟩
  · simp [shooting_bullet_velocity, normalize3, Prod.ext_iff, hz]
  · simp [move_enemies_correction, normalize2]

/-- Witness for C7 (amended): concrete primitives, the player's actual
z = 2 translation layer, enemy speed 2 and zero velocity. -/
theorem origin_degenerate_guards_witness :
    movement_angle_past (fun _ _ => 0) 0 0 = 0
    ∧ shooting_angle (fun _ _ => 0) 0 0 = 0
    ∧ move_enemies_facing (fun _ _ => 0) 0 0 = 0
    ∧ (shooting_bullet_velocity (fun v => v) 0 0 2).isSome = true
    ∧ move_enemies_correction (fun v => v) (0, 0) 2 (0, 0) = none :=
  origin_degenerate_guards (fun _ _ => 0) (fun v => v) (fun v => v) 0 0 2 2 (0, 0)
    (by norm_num)

/-! ## Claim theorems: bullet lifecycle -/

/-- C8: the `bullet_clean` pass removes a bullet exactly when its lifetime
timer has finished or `has_hit == 2`; it never bumps a fresh bullet's flag;
while `has_hit > 0` it increments it; the pass that first observes
`has_hit == 1` removes the bullet only if the lifetime expired (never for
the hit flag) and advances the flag to 2; and the following pass removes
it — so `has_hit` transitions 0 → 1 → 2 → removed, with despawn two cleanup
passes after the marking. -/
theorem bullet_clean_transitions (b : Bullet) (d1 d2 : ℚ) :
    (bullet_clean_step d1 b).1 = ((b.lifetime.tick d1).finished || (b.has_hit == 2))
    ∧ (b.has_hit = 0 → (bullet_clean_step d1 b).2.has_hit = 0)
    ∧ (0 < b.has_hit → (bullet_clean_step d1 b).2.has_hit = (b.has_hit + 1) % 256)
    ∧ (b.has_hit = 1 → (bullet_clean_step d1 b).1 = (b.lifetime.tick d1).finished)
    ∧ (b.has_hit = 1 → (bullet_clean_step d1 b).2.has_hit = 2)
    ∧ (b.has_hit = 1 → (b.lifetime.tick d1).finished = false →
        (bullet_clean_step d1 b).1 = false
        ∧ (bullet_clean_step d2 (bullet_clean_step d1 b).2).1 = true) := by
  refine ⟨rfl, ?_, ?_, ?_, ?_, ?_⟩
  · intro h
    simp [bullet_clean_step, h]
  · intro h
    simp [bullet_clean_step, h]
  · intro h
    simp [bullet_clean_step, h]
  · intro h
    simp [bullet_clean_step, h]
  · intro h hfin
    constructor
    · simp [bullet_clean_step, h, hfin]
    · simp [bullet_clean_step, h, hfin]

/-- Witness for C8: a bullet freshly marked (`has_hit = 1`, lifetime 1000 ms
at 0) survives the 100 ms pass that sees the mark and is removed by the
next one. -/
theorem bullet_clean_transitions_witness :
    (bullet_clean_step 100 (Bullet.mk (Timer.mk 0 1000 false) 25 1)).1 = false
    ∧ (bullet_clean_step 100
        (bullet_clean_step 100 (Bullet.mk (Timer.mk 0 1000 false) 25 1)).2).1 = true :=
  (bullet_clean_transitions (Bullet.mk (Timer.mk 0 1000 false) 25 1) 100 100).2.2.2.2.2
    rfl (by norm_num [Timer.tick])

/-! ## Spawner lemmas -/

theorem challenge_new_length (cool : Nat → Nat → ℚ) :
    (Challenge.new cool).waves.length = 100 := by
  simp [Challenge.new]

theorem challenge_new_get (cool : Nat → Nat → ℚ) (i : Nat) (h : i < 100) :
    (Challenge.new cool).waves[i]? = some (Wave.from_progress i (cool i)) := by
  simp [Challenge.new, h]

theorem from_progress_length (p : Nat) (cool : Nat → ℚ) :
    (Wave.from_progress p cool).spawns.length = p * 3 := by
  simp [Wave.from_progress]

theorem from_progress_get (p : Nat) (cool : Nat → ℚ) (j : Nat) (h : j < p * 3) :
    (Wave.from_progress p cool).spawns[j]? = some (SpawnAt.mk 0 (cool j)) := by
  simp [Wave.from_progress, h]

theorem fire_inv (ch : Challenge) (s s' : Spawner) (o : Option (Nat × Nat × SpawnAt))
    (h : spawn_enemies_fire ch s = some (s', o)) :
    s'.current_wave = s.current_wave ∧ s'.current_spawn = s.current_spawn
    ∧ ∃ sp, o = some (s.current_wave, s.current_spawn, sp) := by
  unfold spawn_enemies_fire at h
  split at h
  · cases h
  · split at h
    · cases h
    · rename_i wave hw sp hsp
      simp only [Option.some.injEq, Prod.mk.injEq] at h
      obtain ⟨hs, ho⟩ := h
      subst hs
      exact ⟨rfl, rfl, sp, ho.symm⟩

/-- C4: whatever the challenge table and the tick, a spawner step never
changes `current_wave` while the enemy population is non-empty, and whenever
`current_wave` does change the population was empty on that tick, the wave
index advanced by exactly one and `current_spawn` was reset to 0. -/
theorem wave_advance_gate (ch : Challenge) (empt : Bool) (d : ℚ) (s s' : Spawner)
    (o : Option (Nat × Nat × SpawnAt))
    (h : spawn_enemies_step ch empt d s = some (s', o)) :
    (empt = false → s'.current_wave = s.current_wave)
    ∧ (s'.current_wave ≠ s.current_wave →
        empt = true ∧ s'.current_wave = s.current_wave + 1 ∧ s'.current_spawn = 0) := by
  unfold spawn_enemies_step at h
  by_cases h1 : ch.waves.length ≤ s.current_wave
  · rw [if_pos h1] at h
    simp only [Option.some.injEq, Prod.mk.injEq] at h
    obtain ⟨hs, -⟩ := h
    subst hs
    exact ⟨fun _ => rfl, fun hne => absurd rfl hne⟩
  · rw [if_neg h1] at h
    by_cases h2 : (s.spawntimer.tick d).finished
    · rw [if_pos h2] at h
      rcases hw : ch.waves[s.current_wave]? with _ | wave
      · rw [hw] at h
        cases h
      · rw [hw] at h
        dsimp only at h
        by_cases h3 : wave.spawns.length ≤ s.current_spawn + 1
        · rw [if_pos h3] at h
          by_cases h4 : empt = true
          · rw [if_pos h4] at h
            by_cases h5 : ch.waves.length ≤ s.current_wave + 1
            · rw [if_pos h5] at h
              simp only [Option.some.injEq, Prod.mk.injEq] at h
              obtain ⟨hs, -⟩ := h
              subst hs
              exact ⟨fun hf => absurd (hf ▸ h4) Bool.false_ne_true,
                fun _ => ⟨h4, rfl, rfl⟩⟩
            · rw [if_neg h5] at h
              have hf := fire_inv ch _ s' o h
              exact ⟨fun hfe => absurd (hfe ▸ h4) Bool.false_ne_true,
                fun _ => ⟨h4, hf.1, hf.2.1⟩⟩
          · rw [if_neg h4] at h
            simp only [Option.some.injEq, Prod.mk.injEq] at h
            obtain ⟨hs, -⟩ := h
            subst hs
            exact ⟨fun _ => rfl, fun hne => absurd rfl hne⟩
        · rw [if_neg h3] at h
          have hf := fire_inv ch _ s' o h
          exact ⟨fun _ => hf.1, fun hne => absurd hf.1 hne⟩
    · rw [if_neg h2] at h
      simp only [Option.some.injEq, Prod.mk.injEq] at h
      obtain ⟨hs, -⟩ := h
      subst hs
      exact ⟨fun _ => rfl, fun hne => absurd rfl hne⟩

/-- Witness for C4: the spawner sits at wave 2, entry 5 (of 6 — exhausted),
its timer fires, but enemies are alive (`empt = false`): the step only
records the ticked timer and changes neither index. -/
theorem wave_advance_gate_witness :
    (Spawner.mk (Timer.mk 2000 2000 true) 1024 2 5).current_wave
      = (Spawner.mk (Timer.mk 1999 2000 false) 1024 2 5).current_wave :=
  (wave_advance_gate (Challenge.new fun _ _ => 1000) false 1
    (Spawner.mk (Timer.mk 1999 2000 false) 1024 2 5)
    (Spawner.mk (Timer.mk 2000 2000 true) 1024 2 5) none
    (by
      unfold spawn_enemies_step
      rw [challenge_new_length]
      have htick : (Spawner.mk (Timer.mk 1999 2000 false) 1024 2 5).spawntimer.tick 1
          = Timer.mk 2000 2000 true := by
        simp only [Timer.tick]
        norm_num
      rw [htick]
      rw [challenge_new_get (fun _ _ => 1000) 2 (by omega)]
      simp [from_progress_length])).1 rfl

/-- C5: against the generated challenge (100 waves, wave `i` holding `3 × i`
entries), every table access the spawn step performs is in bounds, from any
spawner state whatsoever: the step (whose out-of-bounds accesses are
modelled as `none`) always returns `some`.  The wave-index check precedes
each wave access and the entry index used after an advance or an increment
is below the addressed wave's length. -/
theorem spawn_step_in_bounds (cool : Nat → Nat → ℚ) (empt : Bool) (d : ℚ) (s : Spawner) :
    (spawn_enemies_step (Challenge.new cool) empt d s).isSome = true := by
  unfold spawn_enemies_step
  rw [challenge_new_length]
  by_cases h1 : 100 ≤ s.current_wave
  · rw [if_pos h1]
    rfl
  · rw [if_neg h1]
    by_cases h2 : (s.spawntimer.tick d).finished = true
    · rw [if_pos h2]
      rw [challenge_new_get cool s.current_wave (by omega)]
      dsimp only
      rw [from_progress_length]
      by_cases h3 : s.current_wave * 3 ≤ s.current_spawn + 1
      · rw [if_pos h3]
        by_cases h4 : empt = true
        · rw [if_pos h4]
          by_cases h5 : (100 : Nat) ≤ s.current_wave + 1
          · rw [if_pos h5]
            rfl
          · rw [if_neg h5]
            unfold spawn_enemies_fire
            dsimp only
            rw [challenge_new_get cool (s.current_wave + 1) (by omega)]
            dsimp only
            rw [from_progress_get (s.current_wave + 1) (cool (s.current_wave + 1)) 0 (by omega)]
            rfl
        · rw [if_neg h4]
          rfl
      · rw [if_neg h3]
        unfold spawn_enemies_fire
        dsimp only
        rw [challenge_new_get cool s.current_wave (by omega)]
        dsimp only
        rw [from_progress_get s.current_wave (cool s.current_wave) (s.current_spawn + 1)
          (by omega)]
        rfl
    · rw [if_neg h2]
      rfl

theorem step_quiet (cool : Nat → Nat → ℚ) (empt : Bool) (dl e : ℚ) (h : e + dl < 2000) :
    spawn_enemies_step (Challenge.new cool) empt dl
        (Spawner.mk (Timer.mk e 2000 false) 1024 0 0)
      = some (Spawner.mk (Timer.mk (e + dl) 2000 false) 1024 0 0, none) := by
  unfold spawn_enemies_step
  rw [challenge_new_length]
  have htick : (Spawner.mk (Timer.mk e 2000 false) 1024 0 0).spawntimer.tick dl
      = Timer.mk (e + dl) 2000 false := by
    simp only [Timer.tick]
    simp [not_le.mpr h]
  rw [htick]
  simp

theorem step_fire_first (cool : Nat → Nat → ℚ) (e dl : ℚ) (h : 2000 ≤ e + dl) :
    spawn_enemies_step (Challenge.new cool) true dl
        (Spawner.mk (Timer.mk e 2000 false) 1024 0 0)
      = some (Spawner.mk (Timer.mk 0 (f32_as_u64 (cool 1 0)) false) 1024 1 0,
              some (1, 0, SpawnAt.mk 0 (cool 1 0))) := by
  unfold spawn_enemies_step
  rw [challenge_new_length]
  have htick : (Spawner.mk (Timer.mk e 2000 false) 1024 0 0).spawntimer.tick dl
      = Timer.mk 2000 2000 true := by
    simp only [Timer.tick]
    simp [h]
  rw [htick]
  rw [challenge_new_get cool 0 (by omega)]
  dsimp only
  rw [from_progress_length]
  rw [if_pos (by dsimp only; omega :
    0 * 3 ≤ (Spawner.mk (Timer.mk e 2000 false) 1024 0 0).current_spawn + 1)]
  rw [if_pos rfl]
  rw [if_neg (by dsimp only; omega :
    ¬(100 ≤ (Spawner.mk (Timer.mk e 2000 false) 1024 0 0).current_wave + 1))]
  unfold spawn_enemies_fire
  dsimp only
  rw [challenge_new_get cool 1 (by omega)]
  dsimp only
  rw [from_progress_get 1 (cool 1) 0 (by omega)]
  rfl

theorem iter_quiet (cool : Nat → Nat → ℚ) (empt : Bool) (ds : List ℚ) :
    ∀ e : ℚ, (∀ x ∈ ds, 0 ≤ x) → e + ds.sum < 2000 →
      spawn_enemies_iter (Challenge.new cool) empt
          (Spawner.mk (Timer.mk e 2000 false) 1024 0 0) ds
        = some (Spawner.mk (Timer.mk (e + ds.sum) 2000 false) 1024 0 0, 0) := by
  induction ds with
  | nil =>
    intro e _ _
    simp [spawn_enemies_iter]
  | cons d tl ih =>
    intro e hnn h
    have hd : 0 ≤ d := hnn d (by simp)
    have htl : ∀ x ∈ tl, 0 ≤ x := fun x hx => hnn x (by simp [hx])
    have hsum : 0 ≤ tl.sum := List.sum_nonneg htl
    rw [List.sum_cons] at h
    have h1 : e + d < 2000 := by linarith
    rw [spawn_enemies_iter]
    rw [step_quiet cool empt d e h1]
    dsimp only
    rw [ih (e + d) htl (by linarith)]
    simp [List.sum_cons, add_assoc]

/-- C9: the cooldown installed when a spawn fires gates the *next* firing:
starting from the `setup` spawner (default 2000 ms timer), no spawn is
emitted while the accumulated tick time stays below 2000 ms — whatever
cooldown the table's first used entry carries — and the tick that reaches
2000 ms emits the session's first spawn and only then installs that entry's
cooldown (truncated to `u64` milliseconds) as the new timer duration, to be
consumed by the following firing. -/
theorem first_spawn_default_timer (cool : Nat → Nat → ℚ) (empt : Bool) (ds : List ℚ)
    (d : ℚ) (h1 : ∀ x ∈ ds, 0 ≤ x) (h2 : ds.sum < 2000) (h3 : 2000 ≤ ds.sum + d) :
    spawn_enemies_iter (Challenge.new cool) empt spawner0 ds
      = some (Spawner.mk (Timer.mk ds.sum 2000 false) 1024 0 0, 0)
    ∧ spawn_enemies_step (Challenge.new cool) true d
        (Spawner.mk (Timer.mk ds.sum 2000 false) 1024 0 0)
      = some (Spawner.mk (Timer.mk 0 (f32_as_u64 (cool 1 0)) false) 1024 1 0,
              some (1, 0, SpawnAt.mk 0 (cool 1 0))) := by
  constructor
  · have h := iter_quiet cool empt ds 0 h1 (by simpa using h2)
    simpa [spawner0, Timer.new] using h
  · exact step_fire_first cool ds.sum d h3

/-- Witness for C9: fixed 1000 ms table cooldowns, a quiet 1500 ms tick and
a 500 ms tick that reaches the 2000 ms default. -/
theorem first_spawn_default_timer_witness :
    spawn_enemies_iter (Challenge.new fun _ _ => 1000) true spawner0 [1500]
      = some (Spawner.mk (Timer.mk (List.sum [(1500 : ℚ)]) 2000 false) 1024 0 0, 0)
    ∧ spawn_enemies_step (Challenge.new fun _ _ => 1000) true 500
        (Spawner.mk (Timer.mk (List.sum [(1500 : ℚ)]) 2000 false) 1024 0 0)
      = some (Spawner.mk (Timer.mk 0 (f32_as_u64 1000) false) 1024 1 0,
              some (1, 0, SpawnAt.mk 0 1000)) :=
  first_spawn_default_timer (fun _ _ => 1000) true [1500] 500
    (by norm_num) (by norm_num) (by norm_num)

/-- C10: against the generated challenge, wave 0 is empty (3 × 0 entries),
so a spawn request is only ever emitted for a wave index ≥ 1 (the indices
reported in the request are exactly the spawner's post-step indices); and on
the first firing with an empty enemy population the spawner advances from
wave 0 to wave 1 and spawns wave 1's first entry in that same step. -/
theorem wave_zero_never_spawns :
    (∀ (cool : Nat → Nat → ℚ) (empt : Bool) (d : ℚ) (s s' : Spawner)
        (wi si : Nat) (sp : SpawnAt),
      spawn_enemies_step (Challenge.new cool) empt d s = some (s', some (wi, si, sp)) →
      1 ≤ wi ∧ wi = s'.current_wave ∧ si = s'.current_spawn)
    ∧ ∀ cool : Nat → Nat → ℚ,
        spawn_enemies_step (Challenge.new cool) true 2000 spawner0
          = some (Spawner.mk (Timer.mk 0 (f32_as_u64 (cool 1 0)) false) 1024 1 0,
                  some (1, 0, SpawnAt.mk 0 (cool 1 0))) := by
  constructor
  · intro cool empt d s s' wi si sp h
    unfold spawn_enemies_step at h
    rw [challenge_new_length] at h
    by_cases h1 : 100 ≤ s.current_wave
    · rw [if_pos h1] at h
      simp at h
    · rw [if_neg h1] at h
      by_cases h2 : (s.spawntimer.tick d).finished = true
      · rw [if_pos h2] at h
        rw [challenge_new_get cool s.current_wave (by omega)] at h
        dsimp only at h
        rw [from_progress_length] at h
        by_cases h3 : s.current_wave * 3 ≤ s.current_spawn + 1
        · rw [if_pos h3] at h
          by_cases h4 : empt = true
          · rw [if_pos h4] at h
            by_cases h5 : (100 : Nat) ≤ s.current_wave + 1
            · rw [if_pos h5] at h
              simp at h
            · rw [if_neg h5] at h
              obtain ⟨hw, hs, sp', hsp⟩ :=
                fire_inv (Challenge.new cool) _ s' (some (wi, si, sp)) h
              dsimp only at hw hs
              simp only [Option.some.injEq, Prod.mk.injEq] at hsp
              obtain ⟨hwi, hsi, -⟩ := hsp
              refine ⟨by omega, ?_, ?_⟩
              · rw [hwi, hw]
              · rw [hsi, hs]
          · rw [if_neg h4] at h
            simp at h
        · rw [if_neg h3] at h
          obtain ⟨hw, hs, sp', hsp⟩ :=
            fire_inv (Challenge.new cool) _ s' (some (wi, si, sp)) h
          dsimp only at hw hs
          simp only [Option.some.injEq, Prod.mk.injEq] at hsp
          obtain ⟨hwi, hsi, -⟩ := hsp
          refine ⟨by omega, ?_, ?_⟩
          · rw [hwi, hw]
          · rw [hsi, hs]
      · rw [if_neg h2] at h
        simp at h
  · intro cool
    exact step_fire_first cool 0 2000 (by norm_num)

/-- Witness for C10: the first firing of the session, via the concrete
first-step computation. -/
theorem wave_zero_never_spawns_witness :
    1 ≤ 1
    ∧ (1 : Nat) = (Spawner.mk (Timer.mk 0 (f32_as_u64 1000) false) 1024 1 0).current_wave
    ∧ (0 : Nat) = (Spawner.mk (Timer.mk 0 (f32_as_u64 1000) false) 1024 1 0).current_spawn :=
  wave_zero_never_spawns.1 (fun _ _ => 1000) true 2000 spawner0
    (Spawner.mk (Timer.mk 0 (f32_as_u64 1000) false) 1024 1 0) 1 0 (SpawnAt.mk 0 1000)
    (wave_zero_never_spawns.2 (fun _ _ => 1000))
